import Mathlib

/-!
Verification of the Student-Management-MR client against its specification.

The relevant program logic is shallowly embedded below:
* strings are modelled as `List Char` (`Str`), with JavaScript's
  `toLowerCase`, `includes`, `trim` and `startsWith` modelled explicitly;
* the student-list filter effect from `src/pages/Students/index.jsx`;
* the axios request/response interceptors from `src/services/api.js`;
* the session store (`validateAuth`, `login`, `logout`) from
  `src/context/AuthContext.jsx`;
* the route guard from `src/components/ProtectedRoute.jsx`;
* the delete flow and the list-fetch state updates from
  `src/pages/Students/index.jsx`.
-/

namespace StudentMgmt

/-- Strings of the embedded program, as lists of characters. -/
abbrev Str := List Char

/-- Coerce a Lean string literal into the embedded string type. -/
def strL (s : String) : Str := s.data

/-- JavaScript `String.prototype.toLowerCase()` (ASCII-level model). -/
def lowerL (s : Str) : Str := s.map Char.toLower

/-- Does `s` start with the pattern `p`?  (JS `String.prototype.startsWith`.) -/
def startsWithL : Str → Str → Bool
  | [], _ => true
  | _ :: _, [] => false
  | p :: ps, c :: cs => p == c && startsWithL ps cs

/-- Does `s` contain `p` as a contiguous substring?
(JS `String.prototype.includes`; the empty pattern is contained in every
string, as in JS.) -/
def containsL (p : Str) : Str → Bool
  | [] => startsWithL p []
  | c :: cs => startsWithL p (c :: cs) || containsL p cs

/-- JavaScript `String.prototype.trim()`: strip leading and trailing
whitespace. -/
def trimL (s : Str) : Str :=
  ((s.dropWhile Char.isWhitespace).reverse.dropWhile Char.isWhitespace).reverse

/-- A student record as held by the list view.  `course` is optional because
the code guards on its truthiness (`student.course && ...`). -/
structure Student where
  sid : Str
  name : Str
  email : Str
  course : Option Str
  deriving Repr, DecidableEq

/-- The per-record match test of the filter effect in
`src/pages/Students/index.jsx` (lines 101-105):
`student.name.toLowerCase().includes(f) ||
 (student.course && student.course.toLowerCase().includes(f))`
where `f` is the lowercased search term. -/
def matchesSearch (f : Str) (s : Student) : Bool :=
  containsL f (lowerL s.name) ||
    (match s.course with
     | some c => containsL f (lowerL c)
     | none => false)

/-- The filter effect of `src/pages/Students/index.jsx` (lines 95-108):
if `searchTerm.trim() === ''` the whole list is shown, otherwise the list is
filtered by `matchesSearch` against the lowercased search term. -/
def filterStudents (searchTerm : Str) (students : List Student) : List Student :=
  if trimL searchTerm = [] then students
  else students.filter (matchesSearch (lowerL searchTerm))

/-- The match predicate exactly as the specification sentence words it:
a record matches when the term is empty, or the lowercased term is a
substring of the lowercased name, or of the lowercased course.  Used only
to compare the spec's wording with `filterStudents`. -/
def specMatch (t : Str) (s : Student) : Bool :=
  t == [] ||
    containsL (lowerL t) (lowerL s.name) ||
    (match s.course with
     | some c => containsL (lowerL t) (lowerL c)
     | none => false)

/-- The filtered result as the specification sentence describes it. -/
def specFilter (t : Str) (students : List Student) : List Student :=
  students.filter (specMatch t)

/-- Concrete records from the specification's scenario. -/
def annRec : Student := ⟨strL "1", strL "Ann", strL "ann@x.io", some (strL "Math")⟩

def boRec : Student := ⟨strL "2", strL "Bo", strL "bo@x.io", some (strL "Art")⟩

/-! ### HTTP client adapter (`src/services/api.js`) -/

/-- Outcome of the request interceptor: either the request is forwarded with
an (optional) `Authorization` header, or it is rejected; `navigated` records
whether `window.location.href = '/login'` was executed first. -/
inductive ReqOutcome where
  | send (authHeader : Option Str)
  | rejectNoToken (navigated : Bool)
  deriving Repr, DecidableEq

/-- The `Authorization` header value built by the interceptor. -/
def bearer (token : Str) : Str := strL "Bearer " ++ token

/-- The request interceptor of `src/services/api.js` (lines 13-35):
URLs containing `/auth/` are forwarded untouched; otherwise a stored token
is attached as a bearer header, and with no token the interceptor navigates
to `/login` (unless the current path already contains `/login`) and rejects
the request before it is sent. -/
def requestInterceptor (url : Str) (token : Option Str) (pathname : Str) :
    ReqOutcome :=
  if containsL (strL "/auth/") url then .send none
  else
    match token with
    | some t => .send (some (bearer t))
    | none => .rejectNoToken (!containsL (strL "/login") pathname)

/-- Durable client storage holding the token under the fixed key. -/
structure Storage where
  token : Option Str
  deriving Repr, DecidableEq

/-- Result of the response interceptor's error branch: the storage after it
ran, whether it navigated to `/login`, and whether the error was re-thrown
to the caller (`Promise.reject`). -/
structure RespErrResult where
  storage : Storage
  navigatedToLogin : Bool
  propagated : Bool
  deriving Repr, DecidableEq

/-- The response interceptor's error handler in `src/services/api.js`
(lines 38-51): on status 401 it removes the token and navigates to
`/login`; on 403 it only logs; every error is re-thrown via
`Promise.reject(error)`.  `status` is `none` for a network-layer failure
with no response. -/
def responseErrorInterceptor (status : Option Nat) (st : Storage) :
    RespErrResult :=
  if status = some 401 then
    { storage := ⟨none⟩, navigatedToLogin := true, propagated := true }
  else
    { storage := st, navigatedToLogin := false, propagated := true }

/-! ### Session store (`src/context/AuthContext.jsx`) -/

/-- The user object kept in the session. -/
structure User where
  uid : Str
  uemail : Str
  urole : Str
  uname : Str
  deriving Repr, DecidableEq

/-- Combined client state: the durable token, the in-memory session user and
the `loading` flag of `AuthProvider`. -/
structure AuthState where
  token : Option Str
  user : Option User
  loading : Bool
  deriving Repr, DecidableEq

/-- Possible results of the `GET /auth/me` call made by `validateAuth`:
a success payload, an arrived response not marked `success`, or a rejected
request. -/
inductive MeResult where
  | ok (u : User)
  | notSuccess
  | failed
  deriving Repr, DecidableEq

/-- Function `validateAuth` from `src/context/AuthContext.jsx` (lines 13-47),
together with whether the identity endpoint was called.  With no stored
token it only sets `loading := false`; with a token it calls `/auth/me` and
on success populates the user, otherwise removes the token. -/
def validateAuth (st : AuthState) (me : MeResult) : AuthState × Bool :=
  match st.token with
  | none => ({ st with loading := false }, false)
  | some t =>
      match me with
      | .ok u => ({ token := some t, user := some u, loading := false }, true)
      | .notSuccess => ({ st with token := none, loading := false }, true)
      | .failed => ({ st with token := none, loading := false }, true)

/-- The `data` field of an arrived login response (`response.data`),
holding the success flag, an optional message and the payload. -/
structure LoginRespData where
  success : Bool
  message : Option Str
  dataToken : Str
  dataUser : User
  deriving Repr, DecidableEq

/-- What `login` produced: a success result, a thrown `Error` with a
user-facing message, or an unconverted network-layer failure (identified by
the opaque error it carries). -/
inductive LoginOutcome where
  | ok
  | errMsg (msg : Str)
  | netErr (e : Nat)
  deriving Repr, DecidableEq

/-- Function `login` from `src/context/AuthContext.jsx` (lines 49-83).  The input is
either a network-layer failure (`Except.error e`, the awaited `api.post`
rejected) or an arrived response whose `data` field may be absent
(malformed).  On `response.data && response.data.success` the token is
persisted and then the user is set; otherwise an `Error` with the server
message, or the fallback `'Invalid response from server'`, is thrown.  The
surrounding `catch` only logs and re-throws, so network failures pass
through unconverted. -/
def login (st : AuthState) (resp : Except Nat (Option LoginRespData)) :
    AuthState × LoginOutcome :=
  match resp with
  | .error e => (st, .netErr e)
  | .ok none => (st, .errMsg (strL "Invalid response from server"))
  | .ok (some d) =>
      if d.success then
        ({ token := some d.dataToken, user := some d.dataUser,
           loading := st.loading }, .ok)
      else
        (st, .errMsg (d.message.getD (strL "Invalid response from server")))

/-- Function `logout` from `src/context/AuthContext.jsx` (lines 85-89): removes the
token, clears the user and navigates to `/login`. -/
def logout (st : AuthState) : AuthState :=
  { st with token := none, user := none }

/-- The adapter's 401 handling as it affects the session: the token is
removed from durable storage, and the `window.location.href` assignment
reloads the application, so the in-memory React state restarts from its
initial values (`user = null`, `loading = true`). -/
def handle401 (_st : AuthState) : AuthState :=
  { token := none, user := none, loading := true }

/-- A session-store operation, as invoked after startup validation:
a login attempt, a logout, or the adapter's 401 handling. -/
inductive AuthOp where
  | loginOp (resp : Except Nat (Option LoginRespData))
  | logoutOp
  | unauthorized
  deriving Repr

/-- One session-store operation applied to the combined state. -/
def stepAuth (st : AuthState) : AuthOp → AuthState
  | .loginOp resp => (login st resp).1
  | .logoutOp => logout st
  | .unauthorized => handle401 st

/-- A complete run of the session store: startup validation with the token
`t0` found (or not) in durable storage, followed by any sequence of
operations. -/
def runAuth (t0 : Option Str) (me : MeResult) (ops : List AuthOp) : AuthState :=
  ops.foldl stepAuth (validateAuth ⟨t0, none, true⟩ me).1

/-- The session-token coherence invariant: an authenticated session implies
a token in durable storage. -/
def authInv (st : AuthState) : Prop := st.user.isSome → st.token.isSome

instance (st : AuthState) : Decidable (authInv st) := by
  unfold authInv; infer_instance

/-! ### Route guard (`src/components/ProtectedRoute.jsx`) -/

/-- What the route guard renders: the requested screen, the loading
placeholder, or a redirect to `/login` carrying the attempted path in
navigation state. -/
inductive RouteDecision where
  | render
  | checking
  | redirectLogin (fromPath : Str)
  deriving Repr, DecidableEq

/-- The public routes of `src/components/ProtectedRoute.jsx` (line 6). -/
def publicRoutes : List Str := [strL "/", strL "/login", strL "/register"]

/-- Component `ProtectedRoute` from `src/components/ProtectedRoute.jsx` (lines 8-35):
public routes always render; paths starting with `/dashboard` show the
spinner while the session loads and redirect to `/login` (with the location
in `state.from`) when unauthenticated; every other path renders. -/
def protectedRoute (pathname : Str) (isLoading isAuthenticated : Bool) :
    RouteDecision :=
  if pathname ∈ publicRoutes then .render
  else if startsWithL (strL "/dashboard") pathname then
    if isLoading then .checking
    else if !isAuthenticated then .redirectLogin pathname
    else .render
  else .render

/-! ### List view controller (`src/pages/Students/index.jsx`) -/

/-- A network call issued by the list view. -/
inductive ApiCall where
  | deleteReq (sid : Str)
  | getList
  deriving Repr, DecidableEq

/-- The delete-interaction state of the list view: the dialog flag, the
pending target, and the displayed (source) list. -/
structure DeleteState where
  deleteDialogOpen : Bool
  studentToDelete : Option Student
  students : List Student
  deriving Repr, DecidableEq

/-- Function `handleDeleteClick` (lines 154-157): select a record for deletion and
open the confirmation dialog. -/
def handleDeleteClick (st : DeleteState) (s : Student) : DeleteState :=
  { st with studentToDelete := some s, deleteDialogOpen := true }

/-- Function `handleDeleteConfirm` (lines 163-177), returning the successor state and
the network calls it issued in order.  With no pending target it returns at
once.  Otherwise it awaits `studentAPI.delete(id)`; on success
(`deleteOk = true`) it then calls `fetchStudents()`, which issues the single
`GET /students`; either way the `finally` block closes the dialog and clears
the pending target.  The displayed list is not touched here — only the
eventual re-fetch updates it. -/
def handleDeleteConfirm (st : DeleteState) (deleteOk : Bool) :
    DeleteState × List ApiCall :=
  match st.studentToDelete with
  | none => (st, [])
  | some s =>
      ({ st with deleteDialogOpen := false, studentToDelete := none },
       if deleteOk then [.deleteReq s.sid, .getList] else [.deleteReq s.sid])

/-- The Cancel button and the dialog's `onClose` (lines 290 and 302):
`() => setDeleteDialogOpen(false)` — the dialog is closed and nothing else
happens; no network call is issued. -/
def handleDeleteCancel (st : DeleteState) : DeleteState × List ApiCall :=
  ({ st with deleteDialogOpen := false }, [])

/-- The list-view fetch state: the source list, the filtered projection and
the loading flag. -/
structure ListState where
  students : List Student
  filteredStudents : List Student
  loading : Bool
  deriving Repr, DecidableEq

/-- The success continuation of `fetchStudents` (lines 131-148): whenever a
list response resolves, its data unconditionally overwrites both lists.
There is no request sequence number and no staleness check anywhere in the
function. -/
def applyFetchResult (_st : ListState) (data : List Student) : ListState :=
  { students := data, filteredStudents := data, loading := false }

/-- Displayed list after a series of fetch resolutions, in the order the
responses came back. -/
def resolveFetches (st : ListState) (results : List (List Student)) :
    ListState :=
  results.foldl applyFetchResult st

/-- Modelled from the spec: the sequence-numbered application rule §5 asks
for — apply a result only when its sequence number exceeds the highest seen
so far.  No such code exists in the repository; this definition follows the
spec's words and is used only to exhibit the divergence. -/
def applyFetchSeq (st : ListState × Nat) (res : Nat × List Student) :
    ListState × Nat :=
  if st.2 < res.1 then (applyFetchResult st.1 res.2, res.1) else st

/-- The amended per-record match: as `specMatch`, but a whitespace-only term
also matches everything, mirroring the `searchTerm.trim() === ''` test of
the code. -/
def specMatchTrim (t : Str) (s : Student) : Bool :=
  trimL t == [] ||
    containsL (lowerL t) (lowerL s.name) ||
    (match s.course with
     | some c => containsL (lowerL t) (lowerL c)
     | none => false)

/-- The filtered result described by the amended claim. -/
def specFilterTrim (t : Str) (students : List Student) : List Student :=
  students.filter (specMatchTrim t)

/-! ## Theorems for the claims -/

/-- C1 (counterexample): the claim as stated fails on the whitespace-only
search term `" "`.  The claim's set keeps only records containing a space
in name or course — none here — while the code shows the whole list because
`" ".trim() === ''`. -/
theorem C1_counterexample :
    filterStudents (strL " ") [annRec] ≠ specFilter (strL " ") [annRec] := by
  decide

/-- C1 (amended): for every list L and term t, the code's filtered result
equals the records r of L such that t is empty after trimming whitespace,
or t lowercased is a substring of r.name lowercased, or r has a course and
t lowercased is a substring of it lowercased; in particular the scenario
with search "ar" yields exactly the record Bo/Art. -/
theorem C1_filter_matches_spec :
    (∀ (t : Str) (L : List Student), filterStudents t L = specFilterTrim t L) ∧
    filterStudents (strL "ar") [annRec, boRec] = [boRec] := by
  constructor
  · intro t L
    unfold filterStudents specFilterTrim
    by_cases h : trimL t = []
    · rw [if_pos h]
      symm
      rw [List.filter_eq_self]
      intro s _
      simp [specMatchTrim, h]
    · rw [if_neg h]
      have h2 : (trimL t).isEmpty = false := by
        cases ht : trimL t
        · exact absurd ht h
        · rfl
      apply List.filter_congr
      intro s _
      simp [specMatchTrim, matchesSearch, h2]
  · decide

/-- C2: on any 401 response, the response interceptor removes the token
from durable storage, navigates to the login screen, and still propagates
the error to the caller. -/
theorem C2_unauthorized_response (st : Storage) :
    responseErrorInterceptor (some 401) st =
      { storage := ⟨none⟩, navigatedToLogin := true, propagated := true } := by
  rfl

/-- C4: when no token is stored at startup, `validateAuth` makes no network
call, leaves the session empty, and sets loading to false. -/
theorem C4_no_token_startup (me : MeResult) :
    validateAuth ⟨none, none, true⟩ me = (⟨none, none, false⟩, false) := by
  rfl

/-- C9: filtering is idempotent — filtering an already-filtered list by the
same term returns it unchanged. -/
theorem C9_filter_idempotent (t : Str) (L : List Student) :
    filterStudents t (filterStudents t L) = filterStudents t L := by
  unfold filterStudents
  by_cases h : trimL t = []
  · simp [h]
  · simp [h, List.filter_filter]

/-- C3: for every request to a non-authentication endpoint, a stored token
is attached as `Authorization: Bearer <token>`; with no stored token and a
current route that is not the login page, the request is rejected before
being sent and navigation to the login screen is forced. -/
theorem C3_request_interceptor (url : Str) (token : Option Str) (path : Str)
    (hauth : containsL (strL "/auth/") url = false) :
    (∀ t, token = some t →
      requestInterceptor url token path = .send (some (bearer t))) ∧
    (token = none → containsL (strL "/login") path = false →
      requestInterceptor url token path = .rejectNoToken true) := by
  constructor
  · intro t ht
    subst ht
    simp [requestInterceptor, hauth]
  · intro ht hl
    subst ht
    simp [requestInterceptor, hauth, hl]

/-- C3 witness: a `GET /students` request from `/dashboard` with a stored
token carries the bearer header; with no token it is rejected with a forced
navigation. -/
theorem C3_request_interceptor_witness :
    requestInterceptor (strL "/students") (some (strL "abc"))
        (strL "/dashboard") = .send (some (bearer (strL "abc"))) ∧
    requestInterceptor (strL "/students") none (strL "/dashboard") =
      .rejectNoToken true := by
  constructor
  · exact (C3_request_interceptor (strL "/students") (some (strL "abc"))
      (strL "/dashboard") (by decide)).1 (strL "abc") rfl
  · exact (C3_request_interceptor (strL "/students") none
      (strL "/dashboard") (by decide)).2 rfl (by decide)

/-- C5: a login response that arrived but is malformed (no body) or marked
unsuccessful makes `login` fail with the server-supplied message when
present and the generic fallback otherwise, leaving the state unchanged (no
token persisted, no session populated); a network-layer failure is passed
through unconverted, also leaving the state unchanged. -/
theorem C5_login_failures (st : AuthState) :
    (∀ d : LoginRespData, d.success = false →
      login st (.ok (some d)) =
        (st, .errMsg (d.message.getD (strL "Invalid response from server")))) ∧
    login st (.ok none) =
      (st, .errMsg (strL "Invalid response from server")) ∧
    (∀ e : Nat, login st (.error e) = (st, .netErr e)) := by
  refine ⟨?_, rfl, fun e => rfl⟩
  intro d hd
  simp [login, hd]

/-- C5 witness: a concrete unsuccessful response with a server message
fails with that message and leaves the empty state empty. -/
theorem C5_login_failures_witness :
    login ⟨none, none, false⟩
        (.ok (some ⟨false, some (strL "Bad credentials"), strL "tk",
          ⟨strL "7", strL "a@x.io", strL "admin", strL "A"⟩⟩)) =
      (⟨none, none, false⟩, .errMsg (strL "Bad credentials")) := by
  have h := (C5_login_failures ⟨none, none, false⟩).1
    ⟨false, some (strL "Bad credentials"), strL "tk",
      ⟨strL "7", strL "a@x.io", strL "admin", strL "A"⟩⟩ rfl
  simpa using h

/-- C6: the route guard renders any path outside the `/dashboard` prefix;
under `/dashboard` it shows the loading placeholder while the session
loads, renders when authenticated, and otherwise redirects to login with
the attempted path preserved. -/
theorem C6_route_guard (path : Str) (l a : Bool) :
    (startsWithL (strL "/dashboard") path = false →
      protectedRoute path l a = .render) ∧
    (startsWithL (strL "/dashboard") path = true →
      (l = true → protectedRoute path l a = .checking) ∧
      (l = false → a = true → protectedRoute path l a = .render) ∧
      (l = false → a = false →
        protectedRoute path l a = .redirectLogin path)) := by
  by_cases hpub : path ∈ publicRoutes
  · have hnd : startsWithL (strL "/dashboard") path = false := by
      simp only [publicRoutes, List.mem_cons, List.not_mem_nil, or_false]
        at hpub
      rcases hpub with h | h | h <;> subst h <;> decide
    refine ⟨fun _ => ?_, fun hd => absurd hd (by simp [hnd])⟩
    simp [protectedRoute, hpub]
  · constructor
    · intro hnd
      simp [protectedRoute, hpub, hnd]
    · intro hd
      refine ⟨fun hl => ?_, fun hl ha => ?_, fun hl ha => ?_⟩ <;>
        simp [protectedRoute, hpub, hd, hl] <;> simp [ha]

/-- C6 witness: concrete navigations — a public path renders, and a
dashboard path shows the placeholder while loading, renders when
authenticated, and redirects with the attempted path otherwise. -/
theorem C6_route_guard_witness :
    protectedRoute (strL "/about") false false = .render ∧
    protectedRoute (strL "/dashboard/students") true false = .checking ∧
    protectedRoute (strL "/dashboard/students") false true = .render ∧
    protectedRoute (strL "/dashboard/students") false false =
      .redirectLogin (strL "/dashboard/students") := by
  refine ⟨?_, ?_, ?_, ?_⟩
  · exact (C6_route_guard (strL "/about") false false).1 (by decide)
  · exact ((C6_route_guard (strL "/dashboard/students") true false).2
      (by decide)).1 rfl
  · exact (((C6_route_guard (strL "/dashboard/students") false true).2
      (by decide)).2).1 rfl rfl
  · exact (((C6_route_guard (strL "/dashboard/students") false false).2
      (by decide)).2).2 rfl rfl

/-- C7 (counterexample): cancelling does NOT clear the pending target — the
Cancel handler only closes the dialog, so `studentToDelete` stays set. -/
theorem C7_counterexample :
    (handleDeleteCancel ⟨true, some boRec, [annRec, boRec]⟩).1.studentToDelete
      ≠ none := by
  decide

/-- C7 (amended): with a pending target of id i, confirming issues exactly
one DELETE for i followed by exactly one re-fetch of the full list, does
not touch the displayed list, and clears the pending target; cancelling
closes the dialog and issues no network call, but leaves the pending
target set. -/
theorem C7_delete_flow (st : DeleteState) (s : Student)
    (h : st.studentToDelete = some s) :
    handleDeleteConfirm st true =
      ({ st with deleteDialogOpen := false, studentToDelete := none },
        [.deleteReq s.sid, .getList]) ∧
    (handleDeleteConfirm st true).1.students = st.students ∧
    handleDeleteCancel st = ({ st with deleteDialogOpen := false }, []) := by
  refine ⟨?_, ?_, rfl⟩ <;> simp [handleDeleteConfirm, h]

/-- C7 witness: the delete flow at a concrete state with pending target
Bo — confirming issues DELETE then GET and leaves the displayed list alone;
cancelling closes the dialog with no call and Bo still pending. -/
theorem C7_delete_flow_witness :
    handleDeleteConfirm ⟨true, some boRec, [annRec, boRec]⟩ true =
      (⟨false, none, [annRec, boRec]⟩, [.deleteReq boRec.sid, .getList]) ∧
    handleDeleteCancel ⟨true, some boRec, [annRec, boRec]⟩ =
      (⟨false, some boRec, [annRec, boRec]⟩, []) := by
  have h := C7_delete_flow ⟨true, some boRec, [annRec, boRec]⟩ boRec rfl
  exact ⟨h.1, h.2.2⟩

/-- Data returned by the first-issued fetch of the race scenario. -/
def fetchOneData : List Student := [annRec, boRec]

/-- Data returned by the second-issued fetch of the race scenario. -/
def fetchTwoData : List Student := [annRec]

/-- C8: the code has no request sequence number — `fetchStudents` applies
whatever response resolves last.  When fetch #1 resolves after fetch #2,
the displayed list holds fetch #1's (stale) data, while the spec's
sequence-numbered rule (`applyFetchSeq`) keeps fetch #2's data. -/
theorem C8_stale_fetch_displayed :
    (resolveFetches ⟨[], [], true⟩ [fetchTwoData, fetchOneData]).students =
      fetchOneData ∧
    fetchOneData ≠ fetchTwoData ∧
    (applyFetchSeq (applyFetchSeq (⟨[], [], true⟩, 0) (2, fetchTwoData))
        (1, fetchOneData)).1.students = fetchTwoData := by
  decide

/-- Helper for C10: every session-store operation preserves the
session-token coherence invariant. -/
theorem stepAuth_preserves_inv (st : AuthState) (op : AuthOp)
    (h : authInv st) : authInv (stepAuth st op) := by
  cases op with
  | loginOp resp =>
      cases resp with
      | error e => exact h
      | ok od =>
          cases od with
          | none => exact h
          | some d =>
              by_cases hs : d.success
              · simp [stepAuth, login, hs, authInv]
              · simpa [stepAuth, login, hs] using h
  | logoutOp => simp [stepAuth, logout, authInv]
  | unauthorized => simp [stepAuth, handle401, authInv]

/-- Helper for C10: folding operations from an invariant state keeps the
invariant. -/
theorem foldl_stepAuth_inv (ops : List AuthOp) (st : AuthState)
    (h : authInv st) : authInv (ops.foldl stepAuth st) := by
  induction ops generalizing st with
  | nil => exact h
  | cons op rest ih => exact ih _ (stepAuth_preserves_inv st op h)

/-- Helper for C10: startup validation establishes the invariant from any
stored-token situation. -/
theorem validateAuth_establishes_inv (t0 : Option Str) (me : MeResult) :
    authInv (validateAuth ⟨t0, none, true⟩ me).1 := by
  cases t0 <;> cases me <;> simp [validateAuth, authInv]

/-- C10: whenever the session is authenticated a token is present in
durable storage — each operation (login, logout, the adapter's 401
handling) preserves this, and it holds after startup validation followed by
any sequence of operations. -/
theorem C10_session_token_coherence :
    (∀ (st : AuthState) (op : AuthOp), authInv st → authInv (stepAuth st op)) ∧
    (∀ (t0 : Option Str) (me : MeResult) (ops : List AuthOp),
      authInv (runAuth t0 me ops)) := by
  refine ⟨stepAuth_preserves_inv, fun t0 me ops => ?_⟩
  exact foldl_stepAuth_inv ops _ (validateAuth_establishes_inv t0 me)

/-- C10 witness: the invariant at concrete states — after a logout from an
authenticated state, and after a run of startup validation with a valid
token followed by a login and a 401. -/
theorem C10_session_token_coherence_witness :
    authInv (stepAuth
      ⟨some (strL "tok"),
        some ⟨strL "7", strL "a@x.io", strL "admin", strL "A"⟩, false⟩
      .logoutOp) ∧
    authInv (runAuth (some (strL "tok"))
      (.ok ⟨strL "7", strL "a@x.io", strL "admin", strL "A"⟩)
      [.logoutOp, .unauthorized]) := by
  constructor
  · exact C10_session_token_coherence.1
      ⟨some (strL "tok"),
        some ⟨strL "7", strL "a@x.io", strL "admin", strL "A"⟩, false⟩
      .logoutOp (by decide)
  · exact C10_session_token_coherence.2 (some (strL "tok"))
      (.ok ⟨strL "7", strL "a@x.io", strL "admin", strL "A"⟩)
      [.logoutOp, .unauthorized]

end StudentMgmt
